import Mathlib

/-!
Verification development for the BumpStockEngine CORE networking subsystem.

This file gives a shallow embedding, in Lean 4, of the parts of the code
relevant to the frozen claims:

* `DCFConnection` (src/unnamed/part_000, second revision of DCFConnection.cpp;
  declarations in src/rts/Net/DCFConnection.h): the per-peer connection with
  its lock-free inbound queue, metrics, send-with-retry and failover logic.
* `CGameServer` (src/unnamed/part_001, GameServer.cpp; declarations in
  src/rts/Net/GameServer.h and part_002): the authoritative dispatcher and
  frame scheduler.

Modelling conventions:
* C++ `float`/`double` fields are embedded as `ℚ` (all claim-relevant
  constants — 50, 200, 0.8, 0.25, 0.1, 2.0 — are exactly representable, so
  rational arithmetic agrees with the IEEE evaluation at every input used).
* Machine counters (`uint64_t`) are embedded as `Nat`; none of the claims
  involves wrap-around.
* Calls into the external DCF SDK (`dcf_client_send_message`,
  `dcf_redundancy_trigger_failover`) are modelled as events recorded in a
  `DCFEvents` record; the per-attempt outcome of `dcf_client_send_message`
  is an oracle parameter `Nat → DCFErr`.
* Packets broadcast by the server (`CBaseNetProtocol::Send*` followed by
  `dcfConnection->SendData` or `Broadcast`) are modelled as a list of
  `SrvMsg` values emitted by each operation.
-/

/-! Section: RawPacket (DCF side)

`netcode::RawPacket` is an opaque length-prefixed byte buffer.  The
DCFConnection code never inspects the bytes: `SendData` reads only
`data->length`, and the queue stores shared pointers.  We model a packet by
an identity tag plus its length. -/

structure RawPacket where
  id : Nat
  length : Nat
deriving DecidableEq

/-! Section: DCFConnection state

From DCFConnection.h: `initialized{false}`, `muted{true}`, `lossFactor{0}`,
`Metrics` with all counters zeroed, `msgQueue{1024}` (spsc queue of capacity
1024), `redundancy` pointer.  After a successful constructor
(`InitializeClient`), `initialized` is true and `redundancy` is non-null;
`muted` is never touched by the constructor and stays true. -/

structure DCFMetrics where
  totalPacketsSent : Nat
  totalPacketsReceived : Nat
  totalBytesSent : Nat
  totalBytesReceived : Nat
  failedSendAttempts : Nat
  averageRTT : ℚ
deriving DecidableEq

structure DCFConn where
  initialized : Bool
  muted : Bool
  lossFactor : Int
  hasRedundancy : Bool
  metrics : DCFMetrics
  msgQueue : List RawPacket
deriving DecidableEq

/-- The state of a `DCFConnection` right after a successful constructor run:
`InitializeClient` has set `initialized = true` and obtained the redundancy
manager; every other field keeps its in-class default from DCFConnection.h
(`muted{true}`, `lossFactor{0}`, zeroed metrics, empty queue). -/
def DCFConn.fresh : DCFConn :=
  { initialized := true
    muted := true
    lossFactor := 0
    hasRedundancy := true
    metrics :=
      { totalPacketsSent := 0
        totalPacketsReceived := 0
        totalBytesSent := 0
        totalBytesReceived := 0
        failedSendAttempts := 0
        averageRTT := 0 }
    msgQueue := [] }

/-- Outcome of one `dcf_client_send_message` call, as classified by
`SendWithRetry`: `DCF_SUCCESS`, `DCF_TIMEOUT`, `DCF_NETWORK_ERROR`, or any
other error code. -/
inductive DCFErr where
  | success
  | timeout
  | networkError
  | other
deriving DecidableEq

/-- The `std::error_code` values produced by `SendWithRetry`: default
(success), `timed_out`, `network_down`, `io_error`. -/
inductive SendResult where
  | ok
  | timedOut
  | networkDown
  | ioError
deriving DecidableEq

/-- Externally observable calls made during a connection operation:
how many times `dcf_client_send_message` was invoked, how many times
`dcf_redundancy_trigger_failover` was invoked, and how many times the
reconnect path (`ReconnectTo`) was entered. -/
structure DCFEvents where
  sendAttempts : Nat
  failovers : Nat
  reconnects : Nat
deriving DecidableEq

def DCFEvents.none : DCFEvents := ⟨0, 0, 0⟩

def DCFEvents.add (a b : DCFEvents) : DCFEvents :=
  ⟨a.sendAttempts + b.sendAttempts, a.failovers + b.failovers,
   a.reconnects + b.reconnects⟩

/-- Source: `DCFConnection::TriggerFailoverIfNeeded` (part_000):
`if (metrics.failedSendAttempts > 5 && redundancy) {
  dcf_redundancy_trigger_failover(redundancy); metrics.failedSendAttempts = 0; }` -/
def triggerFailoverIfNeeded (s : DCFConn) : DCFConn × DCFEvents :=
  if 5 < s.metrics.failedSendAttempts ∧ s.hasRedundancy then
    ({ s with metrics := { s.metrics with failedSendAttempts := 0 } },
     ⟨0, 1, 0⟩)
  else
    (s, DCFEvents.none)

/-- Source: `DCFConnection::NeedsReconnect`: `metrics.failedSendAttempts > 10`. -/
def needsReconnect (s : DCFConn) : Bool :=
  10 < s.metrics.failedSendAttempts

/-- One `metrics.failedSendAttempts++`. -/
def bumpFailed (s : DCFConn) : DCFConn :=
  { s with metrics :=
      { s.metrics with failedSendAttempts := s.metrics.failedSendAttempts + 1 } }

/-- Loop body of `DCFConnection::SendWithRetry` (part_000).  `attempt` is
the C++ loop counter, `fuel = maxRetries - attempt` the remaining
iterations, `ec` the accumulated `std::error_code` (default-constructed to
success).  Per attempt: call `dcf_client_send_message` (outcome given by
`oracle attempt`); on success record sent counters and return; on
`DCF_TIMEOUT` call `TriggerFailoverIfNeeded` and set `ec = timed_out`; on
`DCF_NETWORK_ERROR` run the reconnect path when `NeedsReconnect()` and set
`ec = network_down`; on any other error return `io_error` at once (no
failed-attempt increment).  The timeout/network branches then increment
`failedSendAttempts` and back off (sleep has no modelled effect). -/
def sendWithRetryGo (oracle : Nat → DCFErr) (len : Nat) :
    Nat → Nat → SendResult → DCFEvents → DCFConn → DCFConn × SendResult × DCFEvents
  | _, 0, ec, ev, s => (s, ec, ev)
  | attempt, fuel + 1, _, ev, s =>
    let ev := { ev with sendAttempts := ev.sendAttempts + 1 }
    match oracle attempt with
    | DCFErr.success =>
        ({ s with metrics :=
            { s.metrics with
                totalPacketsSent := s.metrics.totalPacketsSent + 1
                totalBytesSent := s.metrics.totalBytesSent + len } },
         SendResult.ok, ev)
    | DCFErr.timeout =>
        let p := triggerFailoverIfNeeded s
        let ev := DCFEvents.add ev p.2
        sendWithRetryGo oracle len (attempt + 1) fuel SendResult.timedOut ev (bumpFailed p.1)
    | DCFErr.networkError =>
        let ev := if needsReconnect s then { ev with reconnects := ev.reconnects + 1 } else ev
        sendWithRetryGo oracle len (attempt + 1) fuel SendResult.networkDown ev (bumpFailed s)
    | DCFErr.other =>
        (s, SendResult.ioError, ev)

/-- Source: `DCFConnection::SendWithRetry(data, maxRetries)` with the default
`maxRetries = 3` supplied at the call site in `SendData`. -/
def sendWithRetry (s : DCFConn) (len : Nat) (oracle : Nat → DCFErr)
    (maxRetries : Nat) : DCFConn × SendResult × DCFEvents :=
  sendWithRetryGo oracle len 0 maxRetries SendResult.ok DCFEvents.none s

/-- Source: `DCFConnection::SendData` (part_000, lines 361-382):
reject when `!initialized || muted`; reject when
`!data || data->length == 0 || data->length > 65535` (only a log, no state
change); otherwise read the RTT (log only), run `SendWithRetry(*data)` and,
if it returned a nonzero error code, call `TriggerFailoverIfNeeded`. -/
def dcfSendData (s : DCFConn) (d : Option RawPacket) (oracle : Nat → DCFErr) :
    DCFConn × DCFEvents :=
  if ¬s.initialized ∨ s.muted then (s, DCFEvents.none)
  else
    match d with
    | Option.none => (s, DCFEvents.none)
    | some p =>
      if p.length = 0 ∨ 65535 < p.length then (s, DCFEvents.none)
      else
        let r := sendWithRetry s p.length oracle 3
        if r.2.1 = SendResult.ok then (r.1, r.2.2)
        else
          let f := triggerFailoverIfNeeded r.1
          (f.1, DCFEvents.add r.2.2 f.2)

/-- Source: `DCFConnection::Unmute`: `muted = false`. -/
def dcfUnmute (s : DCFConn) : DCFConn :=
  { s with muted := false }

/-- Source: `DCFConnection::Peek(ahead)` (part_000, lines 483-495): if
`ahead >= msgQueue.capacity()` (capacity 1024) return null; otherwise pop
the queue head and push it back to the rear, returning the popped packet
(null when the queue was empty).  Note the index `ahead` is not used to
select an element. -/
def dcfPeek (s : DCFConn) (ahead : Nat) : Option RawPacket × DCFConn :=
  if 1024 ≤ ahead then (Option.none, s)
  else
    match s.msgQueue with
    | [] => (Option.none, s)
    | h :: t => (some h, { s with msgQueue := t ++ [h] })

/-- Source: `DCFConnection::GetData` (part_000, lines 497-503): pop the queue head,
returning null when empty. -/
def dcfGetData (s : DCFConn) : Option RawPacket × DCFConn :=
  match s.msgQueue with
  | [] => (Option.none, s)
  | h :: t => (some h, { s with msgQueue := t })

/-! Section: CGameServer state

From GameServer.cpp (part_001) and GameServer.h.  The .cpp is the
authority where it disagrees with the header: it indexes
`rejectedConnections` by the player number from the join packet (the header
declares a name-keyed map) and uses `outstandingSyncFrames` as a map
`frame → map<player, checksum>` (the header declares `std::set<int>`). -/

structure Participant where
  active : Bool
  name : String
  version : String
  spectator : Bool
  team : Nat
  isMidgameJoin : Bool
  readyToStart : Bool
  cpuUsage : ℚ
  lastFrameResponse : Nat
deriving DecidableEq

instance : Inhabited Participant :=
  ⟨{ active := false, name := "", version := "", spectator := false,
     team := 0, isMidgameJoin := false, readyToStart := false,
     cpuUsage := 0, lastFrameResponse := 0 }⟩

/-- Source: `GameTeam` (GameServer.h): just the `active` flag the claims touch. -/
structure GameTeam where
  active : Bool
deriving DecidableEq

instance : Inhabited GameTeam := ⟨{ active := false }⟩

/-- A packet broadcast by the server through
`dcfConnection->SendData(...)` or `Broadcast(...)`, identified by the
`CBaseNetProtocol::Send*` constructor that built it, plus the replay of one
cached packet to a single mid-game joiner (`newPlayer.SendData(p)`). -/
inductive SrvMsg where
  | keyFrame (frame : Int)
  | internalSpeedMsg (v : ℚ)
  | userSpeedMsg (player : Nat) (v : ℚ)
  | pauseMsg (player : Nat) (paused : Bool)
  | reject (player : Nat) (reason : String)
  | createNewPlayer (player : Nat) (spec : Bool) (team : Nat) (name : String)
  | joinTeam (player : Nat) (team : Nat)
  | cacheReplay (toPlayer : Nat) (idx : Nat)
deriving DecidableEq

def isKeyFrameMsg : SrvMsg → Bool
  | SrvMsg.keyFrame _ => true
  | _ => false

def isUserSpeedMsg : SrvMsg → Bool
  | SrvMsg.userSpeedMsg _ _ => true
  | _ => false

def isPauseMsg : SrvMsg → Bool
  | SrvMsg.pauseMsg _ _ => true
  | _ => false

/-- Source: `SERVER_PLAYER` (GameServer.h). -/
def SERVER_PLAYER : Nat := 255

/-- Source: `SYNCCHECK_TIMEOUT` (GameServer.cpp). -/
def SYNCCHECK_TIMEOUT : Int := 300

/-- Source: `serverKeyframeInterval` (GameServer.cpp). -/
def serverKeyframeInterval : Int := 16

structure ServerState where
  serverFrameNum : Int
  syncErrorFrame : Int
  syncWarningFrame : Int
  desyncHasOccurred : Bool
  outstandingSyncFrames : List (Nat × List (Nat × Nat))
  userSpeedFactor : ℚ
  internalSpeed : ℚ
  minUserSpeed : ℚ
  maxUserSpeed : ℚ
  medianCpu : ℚ
  modGameTime : ℚ
  gameTime : ℚ
  startTime : ℚ
  frameTimeLeft : ℚ
  isPaused : Bool
  gamePausable : Bool
  allowSpecJoin : Bool
  whiteListAdditionalPlayers : Bool
  gameHasStarted : Bool
  players : List Participant
  teams : List GameTeam
  packetCache : List Nat
  rejectedConnections : List (Nat × Nat)
deriving DecidableEq

/-- Source: `std::clamp(v, lo, hi)`. -/
def rclamp (v lo hi : ℚ) : ℚ :=
  if v < lo then lo else if hi < v then hi else v

/-- Read of `rejectedConnections[k]` (`std::map` `operator[]` default 0;
the default-insertion of a zero entry on read is not modelled since it is
unobservable through the count). -/
def rcGet (m : List (Nat × Nat)) (k : Nat) : Nat :=
  match m with
  | [] => 0
  | (a, b) :: rest => if a = k then b else rcGet rest k

/-- Source: `rejectedConnections[k]++`. -/
def rcBump (m : List (Nat × Nat)) (k : Nat) : List (Nat × Nat) :=
  match m with
  | [] => [(k, 1)]
  | (a, b) :: rest => if a = k then (a, b + 1) :: rest else (a, b) :: rcBump rest k

/-- Source: `std::map<playerId, checksum>::insert` — keeps the existing entry when
the key is already present. -/
def respInsert (m : List (Nat × Nat)) (player checksum : Nat) : List (Nat × Nat) :=
  match m with
  | [] => [(player, checksum)]
  | (a, b) :: rest =>
      if a = player then (a, b) :: rest
      else (a, b) :: respInsert rest player checksum

/-- Source: `outstandingSyncFrames[frameNum].insert({playerNum, checksum})`:
`operator[]` creates the per-frame map when absent. -/
def osfInsert (osf : List (Nat × List (Nat × Nat))) (frame player checksum : Nat) :
    List (Nat × List (Nat × Nat)) :=
  match osf with
  | [] => [(frame, [(player, checksum)])]
  | (f, resp) :: rest =>
      if f = frame then (f, respInsert resp player checksum) :: rest
      else (f, resp) :: osfInsert rest frame player checksum

/-- Source: `CGameServer::UnpackSyncResponse` (part_001, lines 677-690), after a
successful unpack of `(playerNum, frameNum, checksum)`: record the response
in `outstandingSyncFrames`.  No checksum comparison is performed and no
other field is written. -/
def unpackSyncResponse (s : ServerState) (playerNum frameNum checksum : Nat) :
    ServerState :=
  { s with outstandingSyncFrames :=
      osfInsert s.outstandingSyncFrames frameNum playerNum checksum }

/-- Source: `CGameServer::CheckSync` (part_001, lines 370-390).  The RTT pre-check
only logs and computes an unused local `adjustedTimeout`.  The loop marks
`syncWarningFrame` and `desyncHasOccurred` for every outstanding frame
older than `SYNCCHECK_TIMEOUT`; checksums are never compared and
`syncErrorFrame` is never written. -/
def checkSync (s : ServerState) : ServerState :=
  s.outstandingSyncFrames.foldl
    (fun acc p =>
      if SYNCCHECK_TIMEOUT < acc.serverFrameNum - (p.1 : Int) then
        { acc with syncWarningFrame := (p.1 : Int), desyncHasOccurred := true }
      else acc)
    s

/-- Source: `CGameServer::InternalSpeedChange` (part_001, lines 432-446): no-op if
unchanged, else assign (no clamping) and broadcast an InternalSpeed
packet. -/
def internalSpeedChange (s : ServerState) (newSpeed : ℚ) :
    ServerState × List SrvMsg :=
  if s.internalSpeed = newSpeed then (s, [])
  else ({ s with internalSpeed := newSpeed }, [SrvMsg.internalSpeedMsg newSpeed])

/-- Source: `CGameServer::UserSpeedChange` (part_001, lines 448-466): clamp the
request into `[minUserSpeed, maxUserSpeed]`; no-op if equal to the current
`userSpeedFactor`; possibly lower `internalSpeed` via
`InternalSpeedChange`; assign `userSpeedFactor` and broadcast a UserSpeed
packet. -/
def userSpeedChange (s : ServerState) (newSpeed0 : ℚ) (player : Nat) :
    ServerState × List SrvMsg :=
  let newSpeed := rclamp newSpeed0 s.minUserSpeed s.maxUserSpeed
  if s.userSpeedFactor = newSpeed then (s, [])
  else
    let p :=
      if newSpeed < s.internalSpeed ∨ s.internalSpeed = s.userSpeedFactor then
        internalSpeedChange s newSpeed
      else (s, [])
    ({ p.1 with userSpeedFactor := newSpeed },
     p.2 ++ [SrvMsg.userSpeedMsg player newSpeed])

/-- Source: `CGameServer::UpdateSpeedControl(speedCtrl)` (part_001, lines 468-505).
`dcfRtt` is `dcfConnection->metrics.averageRTT` when a DCF connection is
present (`dcfConnection` non-null), `Option.none` otherwise.  Steps: early
return on `speedCtrl == 0`; recompute `medianCpu` as the mean CPU usage of
active players (when any); when the connection is present and its RTT
exceeds 50 ms, clamp-assign `userSpeedFactor` (log only — no UserSpeed
broadcast); finally call `InternalSpeedChange` with the mean (mode 1) or
the maximum (otherwise) CPU usage. -/
def updateSpeedControl (s : ServerState) (speedCtrl : Int) (dcfRtt : Option ℚ) :
    ServerState × List SrvMsg :=
  if speedCtrl = 0 then (s, [])
  else
    let actives := s.players.filter (fun p => p.active)
    let numClients := actives.length
    let cpuSum := actives.foldl (fun a p => a + p.cpuUsage) 0
    let s := if 0 < numClients then { s with medianCpu := cpuSum / (numClients : ℚ) } else s
    let s :=
      match dcfRtt with
      | some rtt =>
          if 50 < rtt then
            { s with userSpeedFactor :=
                rclamp (s.userSpeedFactor * (50 / rtt)) s.minUserSpeed s.maxUserSpeed }
          else s
      | Option.none => s
    if speedCtrl = 1 then internalSpeedChange s s.medianCpu
    else
      let maxCpu := actives.foldl (fun a p => max a p.cpuUsage) 0
      internalSpeedChange s maxCpu

/-- Source: `CGameServer::CreateNewFrame` (part_001, lines 392-412): increment
`serverFrameNum`; broadcast a KEYFRAME packet when the new frame number is
a multiple of `serverKeyframeInterval` (nothing else happens at a keyframe
— in particular no sync-check entry is created); advance the clocks by
`deltaTime`; run `UpdateSpeedControl(curSpeedCtrl)`. -/
def createNewFrame (s : ServerState) (deltaTime : ℚ) (speedCtrl : Int)
    (dcfRtt : Option ℚ) : ServerState × List SrvMsg :=
  let s := { s with serverFrameNum := s.serverFrameNum + 1 }
  let ev1 :=
    if s.serverFrameNum % serverKeyframeInterval = 0 then
      [SrvMsg.keyFrame s.serverFrameNum]
    else []
  let s :=
    { s with
        modGameTime := s.modGameTime + deltaTime * s.internalSpeed
        gameTime := s.modGameTime + deltaTime * s.internalSpeed - s.startTime
        frameTimeLeft := max 0 (s.frameTimeLeft - deltaTime) }
  let p := updateSpeedControl s speedCtrl dcfRtt
  (p.1, ev1 ++ p.2)

/-- Source: `CGameServer::PauseGame` (part_001, lines 770-782): ignored unless
`gamePausable` and the pause state actually changes; otherwise flip
`isPaused` and broadcast a Pause packet from `SERVER_PLAYER` or player 0. -/
def pauseGame (s : ServerState) (pause fromServer : Bool) :
    ServerState × List SrvMsg :=
  if ¬s.gamePausable ∨ s.isPaused = pause then (s, [])
  else
    ({ s with isPaused := pause },
     [SrvMsg.pauseMsg (if fromServer then SERVER_PLAYER else 0) pause])

/-- Source: `CGameServer::RejectConnection` (part_001, lines 591-600): broadcast a
REJECT packet and increment `rejectedConnections[playerNum]`. -/
def rejectConnection (s : ServerState) (playerNum : Nat) (reason : String) :
    ServerState × List SrvMsg :=
  ({ s with rejectedConnections := rcBump s.rejectedConnections playerNum },
   [SrvMsg.reject playerNum reason])

/-- The decoded payload of a `NETMSG_CREATE_NEWPLAYER` packet, in the order
`AddAdditionalUser` unpacks it. -/
structure JoinMsg where
  playerNum : Nat
  name : String
  passwd : String
  version : String
  spectator : Bool
  team : Nat
deriving DecidableEq

/-- Source: `CGameServer::AddAdditionalUser` (part_001, lines 539-589), after a
successful unpack.  `startPosChooseInGame` stands for
`myGameSetup->startPosType == CGameSetup::StartPos_ChooseInGame`.
Order of the code's checks: (1) the spectator-admission check, (2) the
`rejectedConnections[playerNum] > 3` check, then the accept path: fill the
participant slot, broadcast CreateNewPlayer, possibly activate the team and
broadcast JoinTeam, and replay the packet cache to the new player. -/
def addAdditionalUser (s : ServerState) (m : JoinMsg)
    (startPosChooseInGame : Bool) : ServerState × List SrvMsg :=
  if ¬s.allowSpecJoin ∧ ¬s.whiteListAdditionalPlayers ∧ m.spectator then
    rejectConnection s m.playerNum "Server does not allow additional spectators"
  else if 3 < rcGet s.rejectedConnections m.playerNum then
    rejectConnection s m.playerNum "Too many failed connection attempts"
  else
    let p0 := s.players.getD m.playerNum default
    let newPlayer :=
      { p0 with
          active := true
          name := m.name
          version := m.version
          spectator := m.spectator
          team := m.team
          isMidgameJoin := s.gameHasStarted ∧ ¬m.spectator }
    let s := { s with players := s.players.set m.playerNum newPlayer }
    let ev := [SrvMsg.createNewPlayer m.playerNum m.spectator m.team m.name]
    let p :=
      if ¬m.spectator ∧ ¬(s.teams.getD m.team default).active then
        ({ s with
             players := s.players.set m.playerNum
               { newPlayer with readyToStart := ¬startPosChooseInGame }
             teams := s.teams.set m.team { active := true } },
         ev ++ [SrvMsg.joinTeam m.playerNum m.team])
      else (s, ev)
    (p.1, p.2 ++ (List.range s.packetCache.length).map
      (fun i => SrvMsg.cacheReplay m.playerNum i))

/-- A convenient concrete server state matching the constructor defaults of
`CGameServer` (part_001, member-initialiser list): `serverFrameNum = -1`,
speeds 1, `syncErrorFrame = 0`, flags false except `gamePausable`. -/
def baseState : ServerState :=
  { serverFrameNum := -1
    syncErrorFrame := 0
    syncWarningFrame := 0
    desyncHasOccurred := false
    outstandingSyncFrames := []
    userSpeedFactor := 1
    internalSpeed := 1
    minUserSpeed := 1
    maxUserSpeed := 1
    medianCpu := 0
    modGameTime := 0
    gameTime := 0
    startTime := 0
    frameTimeLeft := 0
    isPaused := false
    gamePausable := true
    allowSpecJoin := false
    whiteListAdditionalPlayers := false
    gameHasStarted := false
    players := []
    teams := []
    packetCache := []
    rejectedConnections := [] }

/-- Source: `baseState` with the speed bounds of end-to-end scenario 3:
`minUserSpeed = 0.1`, `maxUserSpeed = 2.0`. -/
def boundedState : ServerState :=
  { baseState with minUserSpeed := 1/10, maxUserSpeed := 2 }

/-! ## Helper lemmas -/

theorem DCFEvents.add_sendAttempts (a b : DCFEvents) :
    (DCFEvents.add a b).sendAttempts = a.sendAttempts + b.sendAttempts := rfl

/-- Source: `sendAttempts` never decreases along the retry loop. -/
theorem sendWithRetryGo_sendAttempts_le (oracle : Nat → DCFErr) (len : Nat) :
    ∀ (fuel attempt : Nat) (ec : SendResult) (ev : DCFEvents) (s : DCFConn),
      ev.sendAttempts ≤ (sendWithRetryGo oracle len attempt fuel ec ev s).2.2.sendAttempts := by
  intro fuel
  induction fuel with
  | zero => intro attempt ec ev s; simp [sendWithRetryGo]
  | succ n ih =>
    intro attempt ec ev s
    unfold sendWithRetryGo
    cases oracle attempt with
    | success => simp
    | timeout =>
        refine Nat.le_trans ?_ (ih (attempt + 1) SendResult.timedOut _ _)
        simp [DCFEvents.add]
        omega
    | networkError =>
        refine Nat.le_trans ?_ (ih (attempt + 1) SendResult.networkDown _ _)
        split <;> simp
    | other => simp

/-- The retry loop makes at least one transmit attempt when given fuel. -/
theorem sendWithRetry_attempts_pos (s : DCFConn) (len : Nat) (oracle : Nat → DCFErr)
    (n : Nat) : 1 ≤ (sendWithRetry s len oracle (n + 1)).2.2.sendAttempts := by
  unfold sendWithRetry sendWithRetryGo
  cases oracle 0 with
  | success => simp
  | timeout =>
      refine Nat.le_trans ?_ (sendWithRetryGo_sendAttempts_le oracle len n 1 SendResult.timedOut _ _)
      simp [DCFEvents.add, DCFEvents.none]
  | networkError =>
      refine Nat.le_trans ?_ (sendWithRetryGo_sendAttempts_le oracle len n 1 SendResult.networkDown _ _)
      split <;> simp [DCFEvents.none]
  | other => simp

/-! ## Claims -/

/-- C5 counterexample: at exactly 5 accumulated send failures
(`failedSendAttempts = 5`) `TriggerFailoverIfNeeded` does *not* invoke
`dcf_redundancy_trigger_failover` and does not reset the counter: the code
guard is the strict `failedSendAttempts > 5`. -/
theorem failover_not_at_five_cex :
    (triggerFailoverIfNeeded
      { DCFConn.fresh with metrics :=
          { DCFConn.fresh.metrics with failedSendAttempts := 5 } }).2.failovers = 0
    ∧ (triggerFailoverIfNeeded
      { DCFConn.fresh with metrics :=
          { DCFConn.fresh.metrics with failedSendAttempts := 5 } }).1.metrics.failedSendAttempts = 5 := by
  decide

/-- C5 (amended): with the redundancy manager present,
`TriggerFailoverIfNeeded` invokes `dcf_redundancy_trigger_failover` exactly
once as soon as `failedSendAttempts` *exceeds* 5 (i.e. from 6 on) and
resets the counter to 0, so failover is not invoked again until the count
again exceeds 5; at a count of 5 or less it does nothing. -/
theorem failover_strictly_above_five (s : DCFConn) (hr : s.hasRedundancy = true) :
    (5 < s.metrics.failedSendAttempts →
      triggerFailoverIfNeeded s =
        ({ s with metrics := { s.metrics with failedSendAttempts := 0 } }, ⟨0, 1, 0⟩))
    ∧ (s.metrics.failedSendAttempts ≤ 5 →
      triggerFailoverIfNeeded s = (s, DCFEvents.none)) := by
  constructor
  · intro h
    simp [triggerFailoverIfNeeded, h, hr]
  · intro h
    simp [triggerFailoverIfNeeded, Nat.not_lt.mpr h]

/-- Witness for `failover_strictly_above_five` at counts 6 and 5. -/
theorem failover_strictly_above_five_witness :
    triggerFailoverIfNeeded
        { DCFConn.fresh with metrics :=
            { DCFConn.fresh.metrics with failedSendAttempts := 6 } } =
      ({ DCFConn.fresh with metrics :=
            { DCFConn.fresh.metrics with failedSendAttempts := 0 } }, ⟨0, 1, 0⟩)
    ∧ triggerFailoverIfNeeded
        { DCFConn.fresh with metrics :=
            { DCFConn.fresh.metrics with failedSendAttempts := 4 } } =
      ({ DCFConn.fresh with metrics :=
            { DCFConn.fresh.metrics with failedSendAttempts := 4 } }, DCFEvents.none) := by
  refine ⟨?_, ?_⟩
  · have h := (failover_strictly_above_five
      { DCFConn.fresh with metrics :=
          { DCFConn.fresh.metrics with failedSendAttempts := 6 } } rfl).1 (by decide)
    simpa using h
  · have h := (failover_strictly_above_five
      { DCFConn.fresh with metrics :=
          { DCFConn.fresh.metrics with failedSendAttempts := 4 } } rfl).2 (by decide)
    simpa using h

/-- C6 counterexample: on the inbound queue `[p0, p1]`, `Peek(1)` returns
the head `p0` (not the second packet `p1`) and leaves the queue reordered
to `[p1, p0]` — it is not side-effect-free. -/
theorem peek_mutates_queue_cex :
    (dcfPeek { DCFConn.fresh with msgQueue := [⟨0, 3⟩, ⟨1, 3⟩] } 1).1 = some ⟨0, 3⟩
    ∧ (dcfPeek { DCFConn.fresh with msgQueue := [⟨0, 3⟩, ⟨1, 3⟩] } 1).2.msgQueue = [⟨1, 3⟩, ⟨0, 3⟩]
    ∧ (dcfPeek { DCFConn.fresh with msgQueue := [⟨0, 3⟩, ⟨1, 3⟩] } 1).2.msgQueue
        ≠ [⟨0, 3⟩, ⟨1, 3⟩] := by
  decide

/-- C6 (amended): for every connection state and every index `n < 1024`,
`Peek(n)` ignores `n` and returns the queue *head* (or nothing when empty),
cycling the head to the back of the queue — so the queue's contents are
preserved only as a multiset, not in order — while `GetData` returns the
head and removes exactly it. -/
theorem peek_returns_head_getdata_pops (s : DCFConn) (ahead : Nat)
    (h : ahead < 1024) :
    (dcfPeek s ahead).1 = s.msgQueue.head?
    ∧ List.Perm (dcfPeek s ahead).2.msgQueue s.msgQueue
    ∧ (dcfGetData s).1 = s.msgQueue.head?
    ∧ (dcfGetData s).2.msgQueue = s.msgQueue.tail := by
  have hn : ¬(1024 ≤ ahead) := Nat.not_le.mpr h
  cases hq : s.msgQueue with
  | nil => simp [dcfPeek, dcfGetData, hn, hq]
  | cons hd tl =>
      refine ⟨?_, ?_, ?_, ?_⟩
      · simp [dcfPeek, hn, hq]
      · simp only [dcfPeek, hn, if_neg, hq]
        simp [List.perm_append_singleton hd tl]
      · simp [dcfGetData, hq]
      · simp [dcfGetData, hq]

/-- Witness for `peek_returns_head_getdata_pops` on a concrete two-element
queue at index 0. -/
theorem peek_returns_head_getdata_pops_witness :
    (dcfPeek { DCFConn.fresh with msgQueue := [⟨0, 3⟩, ⟨1, 3⟩] } 0).1
      = ({ DCFConn.fresh with msgQueue := [⟨0, 3⟩, ⟨1, 3⟩] } : DCFConn).msgQueue.head?
    ∧ List.Perm (dcfPeek { DCFConn.fresh with msgQueue := [⟨0, 3⟩, ⟨1, 3⟩] } 0).2.msgQueue
        ({ DCFConn.fresh with msgQueue := [⟨0, 3⟩, ⟨1, 3⟩] } : DCFConn).msgQueue
    ∧ (dcfGetData { DCFConn.fresh with msgQueue := [⟨0, 3⟩, ⟨1, 3⟩] }).1
      = ({ DCFConn.fresh with msgQueue := [⟨0, 3⟩, ⟨1, 3⟩] } : DCFConn).msgQueue.head?
    ∧ (dcfGetData { DCFConn.fresh with msgQueue := [⟨0, 3⟩, ⟨1, 3⟩] }).2.msgQueue
      = ({ DCFConn.fresh with msgQueue := [⟨0, 3⟩, ⟨1, 3⟩] } : DCFConn).msgQueue.tail :=
  peek_returns_head_getdata_pops
    { DCFConn.fresh with msgQueue := [⟨0, 3⟩, ⟨1, 3⟩] } 0 (by decide)

/-- C8 (confirmed): `SendData` drops a null packet, a zero-length packet
and any packet longer than 65 535 bytes without transmitting and without
touching any state (only a log line is produced); on a live, unmuted
connection a packet of length exactly 65 535 passes validation and is
submitted to the transport (at least one `dcf_client_send_message` call). -/
theorem senddata_validates_length (s : DCFConn) (d : Option RawPacket)
    (oracle : Nat → DCFErr) :
    ((d = Option.none ∨ ∃ p, d = some p ∧ (p.length = 0 ∨ 65535 < p.length)) →
      dcfSendData s d oracle = (s, DCFEvents.none))
    ∧ (s.initialized = true → s.muted = false →
      ∀ p, d = some p → p.length = 65535 →
      1 ≤ (dcfSendData s d oracle).2.sendAttempts) := by
  constructor
  · rintro (rfl | ⟨p, rfl, hp⟩)
    · unfold dcfSendData; split <;> rfl
    · unfold dcfSendData
      split
      · rfl
      · simp only []
        rw [if_pos]
        rcases hp with hp | hp
        · exact Or.inl hp
        · exact Or.inr hp
  · rintro hi hm p rfl hlen
    unfold dcfSendData
    rw [if_neg (by simp [hi, hm])]
    simp only []
    rw [if_neg (by simp [hlen])]
    have hpos := sendWithRetry_attempts_pos s p.length oracle 2
    split
    · exact hpos
    · simpa [DCFEvents.add_sendAttempts] using Nat.le_trans hpos (Nat.le_add_right _ _)

/-- Witness for `senddata_validates_length`: an oversized packet is
dropped with no state change; a 65 535-byte packet on a live unmuted
connection reaches the transport. -/
theorem senddata_validates_length_witness :
    dcfSendData (dcfUnmute DCFConn.fresh) (some ⟨0, 65536⟩) (fun _ => DCFErr.success)
      = (dcfUnmute DCFConn.fresh, DCFEvents.none)
    ∧ 1 ≤ (dcfSendData (dcfUnmute DCFConn.fresh) (some ⟨0, 65535⟩)
            (fun _ => DCFErr.success)).2.sendAttempts :=
  ⟨(senddata_validates_length (dcfUnmute DCFConn.fresh) (some ⟨0, 65536⟩)
      (fun _ => DCFErr.success)).1 (Or.inr ⟨⟨0, 65536⟩, rfl, Or.inr (by decide)⟩),
   (senddata_validates_length (dcfUnmute DCFConn.fresh) (some ⟨0, 65535⟩)
      (fun _ => DCFErr.success)).2 rfl rfl ⟨0, 65535⟩ rfl rfl⟩

/-- C10 (confirmed): a freshly constructed `DCFConnection` has
`muted = true`; while muted, `SendData` transmits nothing and leaves the
whole state — in particular `totalPacketsSent`, `totalBytesSent` and
`failedSendAttempts` — unchanged, for every packet and every transport
behaviour; `Unmute()` clears the flag, after which `SendData` can transmit
(witnessed by a send attempt on the unmuted fresh connection). -/
theorem fresh_connection_muted_blocks_send :
    DCFConn.fresh.muted = true
    ∧ (∀ (s : DCFConn) (d : Option RawPacket) (oracle : Nat → DCFErr),
        s.muted = true → dcfSendData s d oracle = (s, DCFEvents.none))
    ∧ (∀ s : DCFConn, (dcfUnmute s).muted = false)
    ∧ 1 ≤ (dcfSendData (dcfUnmute DCFConn.fresh) (some ⟨0, 1⟩)
            (fun _ => DCFErr.success)).2.sendAttempts := by
  refine ⟨rfl, ?_, fun s => rfl, by decide⟩
  intro s d oracle hm
  unfold dcfSendData
  rw [if_pos (Or.inr hm)]

/-- Witness for `fresh_connection_muted_blocks_send`: a concrete muted send
is a no-op. -/
theorem fresh_connection_muted_blocks_send_witness :
    dcfSendData DCFConn.fresh (some ⟨7, 42⟩) (fun _ => DCFErr.success)
      = (DCFConn.fresh, DCFEvents.none) :=
  fresh_connection_muted_blocks_send.2.1 DCFConn.fresh (some ⟨7, 42⟩)
    (fun _ => DCFErr.success) rfl

/-! ## GameServer helper lemmas -/

theorem rcGet_rcBump (m : List (Nat × Nat)) (k : Nat) :
    rcGet (rcBump m k) k = rcGet m k + 1 := by
  induction m with
  | nil => simp [rcBump, rcGet]
  | cons a rest ih =>
      obtain ⟨x, y⟩ := a
      by_cases h : x = k
      · subst h; simp [rcBump, rcGet]
      · simp [rcBump, rcGet, h, ih]

theorem rclamp_le (v lo hi : ℚ) (h : lo ≤ hi) : rclamp v lo hi ≤ hi := by
  unfold rclamp
  split_ifs with h1 h2
  · exact h
  · exact le_refl hi
  · exact le_of_not_lt h2

theorem le_rclamp (v lo hi : ℚ) (h : lo ≤ hi) : lo ≤ rclamp v lo hi := by
  unfold rclamp
  split_ifs with h1 h2
  · exact le_refl lo
  · exact h
  · exact le_of_not_lt h1

theorem isc_serverFrameNum (s : ServerState) (v : ℚ) :
    (internalSpeedChange s v).1.serverFrameNum = s.serverFrameNum := by
  unfold internalSpeedChange; split <;> rfl

theorem isc_outstandingSyncFrames (s : ServerState) (v : ℚ) :
    (internalSpeedChange s v).1.outstandingSyncFrames = s.outstandingSyncFrames := by
  unfold internalSpeedChange; split <;> rfl

theorem isc_userSpeedFactor (s : ServerState) (v : ℚ) :
    (internalSpeedChange s v).1.userSpeedFactor = s.userSpeedFactor := by
  unfold internalSpeedChange; split <;> rfl

theorem isc_internalSpeed (s : ServerState) (v : ℚ) :
    (internalSpeedChange s v).1.internalSpeed = v := by
  unfold internalSpeedChange
  split
  · next h => exact h
  · rfl

theorem isc_countP_key (s : ServerState) (v : ℚ) :
    (internalSpeedChange s v).2.countP isKeyFrameMsg = 0 := by
  unfold internalSpeedChange; split <;> simp [isKeyFrameMsg]

theorem isc_countP_user (s : ServerState) (v : ℚ) :
    (internalSpeedChange s v).2.countP isUserSpeedMsg = 0 := by
  unfold internalSpeedChange; split <;> simp [isUserSpeedMsg]

theorem usc_serverFrameNum (s : ServerState) (c : Int) (rtt : Option ℚ) :
    (updateSpeedControl s c rtt).1.serverFrameNum = s.serverFrameNum := by
  cases rtt <;>
    · simp only [updateSpeedControl]
      split_ifs <;> simp [isc_serverFrameNum]

theorem usc_outstandingSyncFrames (s : ServerState) (c : Int) (rtt : Option ℚ) :
    (updateSpeedControl s c rtt).1.outstandingSyncFrames = s.outstandingSyncFrames := by
  cases rtt <;>
    · simp only [updateSpeedControl]
      split_ifs <;> simp [isc_outstandingSyncFrames]

theorem usc_countP_key (s : ServerState) (c : Int) (rtt : Option ℚ) :
    (updateSpeedControl s c rtt).2.countP isKeyFrameMsg = 0 := by
  cases rtt <;>
    · simp only [updateSpeedControl]
      split_ifs <;> simp [isc_countP_key]

theorem usc_countP_user (s : ServerState) (c : Int) (rtt : Option ℚ) :
    (updateSpeedControl s c rtt).2.countP isUserSpeedMsg = 0 := by
  cases rtt <;>
    · simp only [updateSpeedControl]
      split_ifs <;> simp [isc_countP_user]

theorem foldlSync_syncErrorFrame (l : List (Nat × List (Nat × Nat))) :
    ∀ s : ServerState,
      (l.foldl (fun acc p =>
        if SYNCCHECK_TIMEOUT < acc.serverFrameNum - (p.1 : Int) then
          { acc with syncWarningFrame := (p.1 : Int), desyncHasOccurred := true }
        else acc) s).syncErrorFrame = s.syncErrorFrame := by
  induction l with
  | nil => intro s; rfl
  | cons a t ih =>
      intro s
      rw [List.foldl_cons, ih]
      split <;> rfl

/-- C1 (code evaluated at the failing input): after two sync responses for
keyframe 160 with *different* checksums (player 0 sends 0xDEADBEEF, player
1 sends 0xCAFEBABE), the server records both in `outstandingSyncFrames`
but `desyncHasOccurred` stays false and `syncErrorFrame` stays 0 — even
when `CheckSync` (which only looks at frame age, and is never invoked from
`Update`) is run on top.  Moreover no operation ever writes
`syncErrorFrame`, and `UnpackSyncResponse` never touches
`desyncHasOccurred`. -/
theorem sync_mismatch_never_flagged :
    ((checkSync (unpackSyncResponse (unpackSyncResponse
        { baseState with serverFrameNum := 160 } 0 160 0xDEADBEEF)
        1 160 0xCAFEBABE)).desyncHasOccurred = false
    ∧ (checkSync (unpackSyncResponse (unpackSyncResponse
        { baseState with serverFrameNum := 160 } 0 160 0xDEADBEEF)
        1 160 0xCAFEBABE)).syncErrorFrame = 0
    ∧ (unpackSyncResponse (unpackSyncResponse
        { baseState with serverFrameNum := 160 } 0 160 0xDEADBEEF)
        1 160 0xCAFEBABE).outstandingSyncFrames
      = [(160, [(0, 0xDEADBEEF), (1, 0xCAFEBABE)])])
    ∧ (∀ (s : ServerState) (p f c : Nat),
        (unpackSyncResponse s p f c).desyncHasOccurred = s.desyncHasOccurred
        ∧ (unpackSyncResponse s p f c).syncErrorFrame = s.syncErrorFrame)
    ∧ (∀ s : ServerState, (checkSync s).syncErrorFrame = s.syncErrorFrame) := by
  refine ⟨by decide, ?_, ?_⟩
  · intro s p f c; exact ⟨rfl, rfl⟩
  · intro s; exact foldlSync_syncErrorFrame s.outstandingSyncFrames s

/-- C2 counterexample: advancing from frame 15 to the keyframe 16,
`CreateNewFrame` broadcasts the KEYFRAME packet but opens *no* pending
sync-check entry: `outstandingSyncFrames` stays empty. -/
theorem keyframe_opens_no_pending_entry_cex :
    (createNewFrame { baseState with serverFrameNum := 15 } 1 1 Option.none).1.serverFrameNum = 16
    ∧ (createNewFrame { baseState with serverFrameNum := 15 } 1 1 Option.none).2.countP isKeyFrameMsg = 1
    ∧ (createNewFrame { baseState with serverFrameNum := 15 } 1 1 Option.none).1.outstandingSyncFrames = [] := by
  decide

/-- C2 (amended): `CreateNewFrame` first increments `serverFrameNum` and
broadcasts exactly one KEYFRAME packet precisely when the incremented
frame number is a multiple of `serverKeyframeInterval = 16` (so, advancing
from `serverFrameNum = 0`, keyframes go out at frames 16, 32, …, and at no
other frames); however no pending sync-check entry is opened at a keyframe
— `outstandingSyncFrames` is unchanged by `CreateNewFrame` (entries appear
only when a sync response arrives in `UnpackSyncResponse`). -/
theorem keyframe_cadence_no_pending_entry (s : ServerState) (dt : ℚ)
    (ctrl : Int) (rtt : Option ℚ) :
    (createNewFrame s dt ctrl rtt).1.serverFrameNum = s.serverFrameNum + 1
    ∧ (createNewFrame s dt ctrl rtt).2.countP isKeyFrameMsg
        = (if (s.serverFrameNum + 1) % serverKeyframeInterval = 0 then 1 else 0)
    ∧ (createNewFrame s dt ctrl rtt).1.outstandingSyncFrames = s.outstandingSyncFrames := by
  refine ⟨?_, ?_, ?_⟩
  · simp only [createNewFrame]
    simp [usc_serverFrameNum]
  · simp only [createNewFrame]
    simp only [List.countP_append, usc_countP_key]
    split_ifs <;> simp [isKeyFrameMsg]
  · simp only [createNewFrame]
    simp [usc_outstandingSyncFrames]

/-- C3 counterexample: with `averageRtt = 200`, `userSpeedFactor = 1`,
`minUserSpeed = 1/10`, `maxUserSpeed = 2`, `UpdateSpeedControl` does set
`userSpeedFactor = 1/4` but broadcasts *no* UserSpeed packet (the code
only logs the adjustment). -/
theorem rtt_throttle_no_userspeed_broadcast_cex :
    (updateSpeedControl
        { baseState with minUserSpeed := 1/10, maxUserSpeed := 2, internalSpeed := 0 }
        1 (some 200)).1.userSpeedFactor = 1/4
    ∧ (updateSpeedControl
        { baseState with minUserSpeed := 1/10, maxUserSpeed := 2, internalSpeed := 0 }
        1 (some 200)).2.countP isUserSpeedMsg = 0 := by
  refine ⟨?_, usc_countP_user _ _ _⟩
  simp only [updateSpeedControl, baseState]
  norm_num [rclamp, internalSpeedChange]

/-- C3 (amended): whenever the DCF connection reports `averageRtt > 50`,
`UpdateSpeedControl` (with a non-zero mode) assigns
`userSpeedFactor := clamp(userSpeedFactor · 50/rtt, minUserSpeed,
maxUserSpeed)` — with the scenario's inputs this yields 0.25 — but it
broadcasts no UserSpeed packet at all: the change is only logged (an
InternalSpeed packet may separately be broadcast by the
`InternalSpeedChange` call at the end). -/
theorem rtt_throttle_clamps_without_broadcast (s : ServerState) (rtt : ℚ)
    (ctrl : Int) (hc : ctrl ≠ 0) (hr : 50 < rtt) :
    (updateSpeedControl s ctrl (some rtt)).1.userSpeedFactor
      = rclamp (s.userSpeedFactor * (50 / rtt)) s.minUserSpeed s.maxUserSpeed
    ∧ (updateSpeedControl s ctrl (some rtt)).2.countP isUserSpeedMsg = 0 := by
  refine ⟨?_, usc_countP_user s ctrl (some rtt)⟩
  simp only [updateSpeedControl, if_neg hc]
  split_ifs with h1 h2 h3 <;> simp [isc_userSpeedFactor]

/-- Witness for `rtt_throttle_clamps_without_broadcast` at the scenario's
values (`rtt = 200`, `userSpeedFactor = 1`, bounds `[1/10, 2]`). -/
theorem rtt_throttle_clamps_without_broadcast_witness :
    (updateSpeedControl { baseState with minUserSpeed := 1/10, maxUserSpeed := 2 }
        1 (some 200)).1.userSpeedFactor
      = rclamp (({ baseState with minUserSpeed := 1/10, maxUserSpeed := 2 } : ServerState).userSpeedFactor * (50 / 200))
          ({ baseState with minUserSpeed := 1/10, maxUserSpeed := 2 } : ServerState).minUserSpeed
          ({ baseState with minUserSpeed := 1/10, maxUserSpeed := 2 } : ServerState).maxUserSpeed
    ∧ (updateSpeedControl { baseState with minUserSpeed := 1/10, maxUserSpeed := 2 }
        1 (some 200)).2.countP isUserSpeedMsg = 0 :=
  rtt_throttle_clamps_without_broadcast
    { baseState with minUserSpeed := 1/10, maxUserSpeed := 2 } 200 1
    (by decide) (by norm_num)

/-- C4 counterexample: with the rejection count for player number 7
already at 10 (> 3), a further spectator join attempt while
`allowSpecJoin` and `whiteListAdditionalPlayers` are both false is still
rejected with "Server does not allow additional spectators" — the
spectator check precedes the count check, so the reason never becomes
"Too many failed connection attempts" on this path. -/
theorem spectator_reject_reason_cex :
    (addAdditionalUser { baseState with rejectedConnections := [(7, 10)] }
        ⟨7, "bob", "", "v1", true, 0⟩ false).2
      = [SrvMsg.reject 7 "Server does not allow additional spectators"]
    ∧ (addAdditionalUser { baseState with rejectedConnections := [(7, 10)] }
        ⟨7, "bob", "", "v1", true, 0⟩ false).2
      ≠ [SrvMsg.reject 7 "Too many failed connection attempts"] := by
  decide

/-- C4 (amended): a spectator join while `allowSpecJoin` and
`whiteListAdditionalPlayers` are both false is rejected with a REJECT
packet carrying "Server does not allow additional spectators", and the
rejection count stored under the player's *number* (the `.cpp` keys
`rejectedConnections` by `playerNum`, not by name) is incremented,
reaching 1 after a first attempt; because this check runs before the count
check, such spectator attempts keep that reason no matter how large the
count is, and "Too many failed connection attempts" is sent only when the
spectator condition does not fire and the count for the player's number
exceeds 3. -/
theorem spectator_reject_counts_by_playernum (s : ServerState) (m : JoinMsg)
    (sp : Bool) :
    (s.allowSpecJoin = false → s.whiteListAdditionalPlayers = false →
      m.spectator = true →
      (addAdditionalUser s m sp).2
          = [SrvMsg.reject m.playerNum "Server does not allow additional spectators"]
      ∧ rcGet (addAdditionalUser s m sp).1.rejectedConnections m.playerNum
          = rcGet s.rejectedConnections m.playerNum + 1)
    ∧ ((m.spectator = false ∨ s.allowSpecJoin = true ∨ s.whiteListAdditionalPlayers = true) →
      3 < rcGet s.rejectedConnections m.playerNum →
      (addAdditionalUser s m sp).2
          = [SrvMsg.reject m.playerNum "Too many failed connection attempts"]) := by
  constructor
  · intro ha hw hs
    unfold addAdditionalUser
    rw [if_pos (by simp [ha, hw, hs])]
    exact ⟨rfl, rcGet_rcBump _ _⟩
  · intro hd hc
    unfold addAdditionalUser
    rw [if_neg (by rcases hd with h | h | h <;> simp [h]), if_pos hc]
    rfl

/-- Witness for `spectator_reject_counts_by_playernum`: a first spectator
attempt by "bob" (player number 1) on a server with both flags false and
no prior rejections is rejected with the spectator reason and brings the
count for player number 1 to 1; a non-spectator attempt by a player
number with count 4 gets the too-many-attempts reason. -/
theorem spectator_reject_counts_by_playernum_witness :
    ((addAdditionalUser baseState ⟨1, "bob", "", "v1", true, 0⟩ false).2
        = [SrvMsg.reject 1 "Server does not allow additional spectators"]
      ∧ rcGet (addAdditionalUser baseState ⟨1, "bob", "", "v1", true, 0⟩ false).1.rejectedConnections 1
        = rcGet baseState.rejectedConnections 1 + 1)
    ∧ (addAdditionalUser { baseState with rejectedConnections := [(2, 4)] }
        ⟨2, "eve", "", "v1", false, 0⟩ false).2
        = [SrvMsg.reject 2 "Too many failed connection attempts"] :=
  ⟨(spectator_reject_counts_by_playernum baseState ⟨1, "bob", "", "v1", true, 0⟩ false).1
      rfl rfl rfl,
   (spectator_reject_counts_by_playernum { baseState with rejectedConnections := [(2, 4)] }
      ⟨2, "eve", "", "v1", false, 0⟩ false).2 (Or.inl rfl) (by decide)⟩

/-- C7 counterexample: from a state satisfying the claimed invariant
(`internalSpeed = userSpeedFactor = minUserSpeed = 1 ≤ maxUserSpeed = 2`),
`InternalSpeedChange(3)` sets `internalSpeed = 3` with no clamping, so
`internalSpeed ≤ userSpeedFactor` (and `internalSpeed ≤ maxUserSpeed`)
fails immediately after the operation. -/
theorem internal_speed_unclamped_cex :
    (internalSpeedChange { baseState with maxUserSpeed := 2 } 3).1.internalSpeed = 3
    ∧ (internalSpeedChange { baseState with maxUserSpeed := 2 } 3).1.userSpeedFactor = 1
    ∧ ¬((internalSpeedChange { baseState with maxUserSpeed := 2 } 3).1.internalSpeed
        ≤ (internalSpeedChange { baseState with maxUserSpeed := 2 } 3).1.userSpeedFactor) := by
  refine ⟨isc_internalSpeed _ _, ?_, ?_⟩
  · rw [isc_userSpeedFactor]
    norm_num [baseState]
  · rw [isc_internalSpeed, isc_userSpeedFactor]
    norm_num [baseState]

/-- C7 (amended): the bound `userSpeedFactor ∈ [minUserSpeed,
maxUserSpeed]` *is* preserved by `UpdateSpeedControl` and
`UserSpeedChange` (given `minUserSpeed ≤ maxUserSpeed`), and
`UserSpeedChange` also preserves `internalSpeed ≤ userSpeedFactor`; but
`InternalSpeedChange` assigns `internalSpeed` unconditionally (and
`UpdateSpeedControl` feeds it the unclamped CPU mean/maximum), so the full
chain `internalSpeed ≤ userSpeedFactor` is not an invariant of every
speed-changing operation. -/
theorem user_speed_factor_bounds_preserved (s : ServerState) (v : ℚ)
    (pl : Nat) (ctrl : Int) (rtt : Option ℚ)
    (hb : s.minUserSpeed ≤ s.maxUserSpeed)
    (h1 : s.minUserSpeed ≤ s.userSpeedFactor)
    (h2 : s.userSpeedFactor ≤ s.maxUserSpeed) :
    (s.minUserSpeed ≤ (updateSpeedControl s ctrl rtt).1.userSpeedFactor
      ∧ (updateSpeedControl s ctrl rtt).1.userSpeedFactor ≤ s.maxUserSpeed)
    ∧ (s.minUserSpeed ≤ (userSpeedChange s v pl).1.userSpeedFactor
      ∧ (userSpeedChange s v pl).1.userSpeedFactor ≤ s.maxUserSpeed)
    ∧ (s.internalSpeed ≤ s.userSpeedFactor →
        (userSpeedChange s v pl).1.internalSpeed
          ≤ (userSpeedChange s v pl).1.userSpeedFactor) := by
  refine ⟨?_, ?_, ?_⟩
  · cases rtt with
    | none =>
        simp only [updateSpeedControl]
        split_ifs <;> simp [isc_userSpeedFactor, h1, h2]
    | some r =>
        simp only [updateSpeedControl]
        split_ifs <;>
          simp [isc_userSpeedFactor, h1, h2, le_rclamp _ _ _ hb, rclamp_le _ _ _ hb]
  · simp only [userSpeedChange]
    split_ifs with hEq hCond <;>
      simp [isc_userSpeedFactor, h1, h2, le_rclamp _ _ _ hb, rclamp_le _ _ _ hb]
  · intro hin
    simp only [userSpeedChange]
    split_ifs with hEq hCond
    · exact hin
    · simp [isc_internalSpeed]
    · exact le_of_not_lt (fun hlt => hCond (Or.inl hlt))

/-- Witness for `user_speed_factor_bounds_preserved` at a concrete state
with bounds `[1/10, 2]` and both speeds 1, request 5, mode 1, no RTT. -/
theorem user_speed_factor_bounds_preserved_witness :
    (boundedState.minUserSpeed
        ≤ (updateSpeedControl boundedState 1 Option.none).1.userSpeedFactor
      ∧ (updateSpeedControl boundedState 1 Option.none).1.userSpeedFactor
        ≤ boundedState.maxUserSpeed)
    ∧ (boundedState.minUserSpeed
        ≤ (userSpeedChange boundedState 5 0).1.userSpeedFactor
      ∧ (userSpeedChange boundedState 5 0).1.userSpeedFactor
        ≤ boundedState.maxUserSpeed)
    ∧ (boundedState.internalSpeed ≤ boundedState.userSpeedFactor →
        (userSpeedChange boundedState 5 0).1.internalSpeed
          ≤ (userSpeedChange boundedState 5 0).1.userSpeedFactor) :=
  user_speed_factor_bounds_preserved boundedState 5 0 1 Option.none
    (by norm_num [boundedState, baseState]) (by norm_num [boundedState, baseState])
    (by norm_num [boundedState, baseState])

/-- C9 (confirmed): `PauseGame(on, fromServer)` is a no-op unless
`gamePausable` holds and `on` differs from the current `isPaused`; hence a
second `PauseGame(true, ·)` right after a first one is always a no-op, and
starting from a pausable unpaused state the pair of calls broadcasts
exactly one Pause packet. -/
theorem pause_twice_single_packet (s : ServerState) (fromServer : Bool) :
    pauseGame (pauseGame s true fromServer).1 true fromServer
        = ((pauseGame s true fromServer).1, [])
    ∧ (s.gamePausable = true → s.isPaused = false →
        (pauseGame s true fromServer).2.countP isPauseMsg = 1)
    ∧ ((s.gamePausable = false ∨ s.isPaused = true) →
        pauseGame s true fromServer = (s, [])) := by
  refine ⟨?_, ?_, ?_⟩
  · by_cases hp : s.gamePausable
    · by_cases hq : s.isPaused
      · simp [pauseGame, hp, hq]
      · simp [pauseGame, hp, hq]
    · simp [pauseGame, hp]
  · intro hp hq
    simp [pauseGame, hp, hq, isPauseMsg]
  · rintro (hp | hq)
    · simp [pauseGame, hp]
    · simp [pauseGame, hq]

/-- Witness for `pause_twice_single_packet` from the constructor-default
state (pausable, unpaused) with `fromServer = true`. -/
theorem pause_twice_single_packet_witness :
    pauseGame (pauseGame baseState true true).1 true true
        = ((pauseGame baseState true true).1, [])
    ∧ (pauseGame baseState true true).2.countP isPauseMsg = 1
    ∧ pauseGame { baseState with isPaused := true } true true
        = ({ baseState with isPaused := true }, []) :=
  ⟨(pause_twice_single_packet baseState true).1,
   (pause_twice_single_packet baseState true).2.1 rfl rfl,
   (pause_twice_single_packet { baseState with isPaused := true } true).2.2 (Or.inr rfl)⟩
